import Mathlib

/-!
Shallow embedding of the imageproc_gpu Executor layer (src/lib.rs and
src/contrast.rs).  Host-side control flow (allocation flags, kernel
launches, read-backs, assertions, the pixel-format table, platform and
device selection) is translated from the Rust source.  The per-pixel
OpenCL kernels live in programs/contrast.cl, which is not part of the
sources here; their per-pixel functions are modelled from the spec, with
the tie-break for threshold fixed by the tests in src/contrast.rs.
-/

namespace ImageprocGpu

/-- A grayscale host image (image::GrayImage): width, height and a
row-major pixel buffer. -/
structure GrayImage where
  width : Nat
  height : Nat
  data : List Nat
deriving Repr, DecidableEq

/-- Pixel read at coordinates (x, y), row-major indexing. -/
def GrayImage.get (img : GrayImage) (x y : Nat) : Nat :=
  img.data.getD (y * img.width + x) 0

/-- A constant image, as built by GrayImage::from_pixel in the tests. -/
def constImage (w h c : Nat) : GrayImage :=
  ⟨w, h, List.replicate (w * h) c⟩

/-! OpenCL cl_mem_flags bit values, as re-exported by the ocl crate. -/

def MEM_READ_WRITE : Nat := 1
def MEM_WRITE_ONLY : Nat := 2
def MEM_READ_ONLY : Nat := 4
def MEM_COPY_HOST_PTR : Nat := 32
def MEM_HOST_WRITE_ONLY : Nat := 128
def MEM_HOST_READ_ONLY : Nat := 256

/-- Flags of the source image allocation in threshold, adaptive_threshold
and stretch_contrast (src/contrast.rs). -/
def srcFlags : Nat := MEM_READ_ONLY ||| MEM_HOST_WRITE_ONLY ||| MEM_COPY_HOST_PTR

/-- Flags of the destination image allocation in threshold,
adaptive_threshold and stretch_contrast (src/contrast.rs). -/
def destFlags : Nat := MEM_WRITE_ONLY ||| MEM_HOST_READ_ONLY ||| MEM_COPY_HOST_PTR

/-- Default flags used by alloc_img when the caller passes None
(src/lib.rs, the None arm of the flags match). -/
def defaultFlags : Nat := MEM_COPY_HOST_PTR ||| MEM_READ_WRITE

/-- Device-side events issued by one operation, in program order:
allocations (flags and dimensions), kernel launches (entry name and
global work size) and read-backs (index into the allocation list of the
device image copied back to the host). -/
structure OpTrace where
  allocs : List (Nat × (Nat × Nat))
  launches : List (String × (Nat × Nat))
  reads : List Nat
deriving Repr, DecidableEq

/-- Modelled from the spec: the per-pixel function of the threshold
kernel of programs/contrast.cl (not under src/).  The spec describes a
binary threshold; the tie-break at v = t is fixed by the repository
tests test_threshold_0_image_0 and test_threshold_threshold_255_image_255
(src/contrast.rs), which require output 0 when v = t, hence strict
comparison. -/
def thresholdPixel (t v : Nat) : Nat :=
  if t < v then 255 else 0

/-- Executor::threshold (src/contrast.rs): allocates a read-only source
and a write-only destination, launches the threshold kernel over one
work item per pixel, and reads the destination back into a fresh
buffer. -/
def threshold (img : GrayImage) (t : Nat) : OpTrace × GrayImage :=
  let dims := (img.width, img.height)
  (⟨[(srcFlags, dims), (destFlags, dims)], [("threshold", dims)], [1]⟩,
   ⟨img.width, img.height, img.data.map (thresholdPixel t)⟩)

/-- Executor::threshold_mut (src/contrast.rs): allocates a single
read-write device image with the default flags, launches the
threshold_mut kernel (same per-pixel semantics per the spec), and reads
that image back into the buffer of the caller.  The returned image is
the new content of that buffer. -/
def threshold_mut (img : GrayImage) (t : Nat) : OpTrace × GrayImage :=
  let dims := (img.width, img.height)
  (⟨[(defaultFlags, dims)], [("threshold_mut", dims)], [0]⟩,
   ⟨img.width, img.height, img.data.map (thresholdPixel t)⟩)

/-- Modelled from the spec: coordinates of the square neighbourhood of
half-width r around c, clamped to the image border, for the
adaptive_threshold kernel of programs/contrast.cl (not under src/). -/
def nbhd (c r n : Nat) : List Nat :=
  (List.range n).filter (fun i => (Int.ofNat i - Int.ofNat c).natAbs ≤ r)

/-- Modelled from the spec: the pixel values of the clamped square
neighbourhood around (x, y). -/
def localMeanVals (img : GrayImage) (x y r : Nat) : List Nat :=
  (nbhd y r img.height).flatMap (fun j => (nbhd x r img.width).map (fun i => img.get i j))

/-- Modelled from the spec: the mean intensity over the clamped square
neighbourhood around (x, y). -/
def localMean (img : GrayImage) (x y r : Nat) : Nat :=
  (localMeanVals img x y r).sum / (localMeanVals img x y r).length

/-- Modelled from the spec: the per-pixel function of the
adaptive_threshold kernel — 255 when the pixel is at least its clamped
local mean (ties pass), 0 otherwise. -/
def adaptivePixel (img : GrayImage) (x y r : Nat) : Nat :=
  if localMean img x y r ≤ img.get x y then 255 else 0

/-- Executor::adaptive_threshold (src/contrast.rs): asserts
block_radius > 0 before any device work, then follows the same
allocate-dispatch-readback protocol as threshold. -/
def adaptive_threshold (img : GrayImage) (block_radius : Nat) :
    Except String (OpTrace × GrayImage) :=
  if block_radius > 0 then
    let dims := (img.width, img.height)
    .ok (⟨[(srcFlags, dims), (destFlags, dims)], [("adaptive_threshold", dims)], [1]⟩,
      ⟨img.width, img.height,
       (List.range (img.width * img.height)).map
         (fun i => adaptivePixel img (i % img.width) (i / img.width) block_radius)⟩)
  else
    .error "assertion failed: block_radius > 0"

/-- Modelled from the spec: the per-pixel function of the
stretch_contrast kernel of programs/contrast.cl (not under src/) —
0 at or below lower, 255 at or above upper, linear in between. -/
def stretchPixel (lower upper v : Nat) : Nat :=
  if v ≤ lower then 0
  else if upper ≤ v then 255
  else 255 * (v - lower) / (upper - lower)

/-- Executor::stretch_contrast (src/contrast.rs): asserts upper > lower
before any device work, then follows the same allocate-dispatch-readback
protocol as threshold. -/
def stretch_contrast (img : GrayImage) (lower upper : Nat) :
    Except String (OpTrace × GrayImage) :=
  if lower < upper then
    let dims := (img.width, img.height)
    .ok (⟨[(srcFlags, dims), (destFlags, dims)], [("stretch_contrast", dims)], [1]⟩,
      ⟨img.width, img.height, img.data.map (stretchPixel lower upper)⟩)
  else
    .error "upper must be strictly greater than lower"

/-! The Image Marshaler of src/lib.rs: pixel-format mapping and device
image allocation (Executor::alloc_img). -/

/-- Host pixel formats (image::ColorType) handled by the match in
alloc_img.  The private __NonExhaustive variant cannot be constructed
by callers and is omitted. -/
inductive ColorType where
  | L8 | La8 | Rgb8 | Rgba8 | L16 | La16 | Rgb16 | Rgba16 | Bgr8 | Bgra8
deriving Repr, DecidableEq

/-- Device channel orders used by alloc_img
(ocl::enums::ImageChannelOrder). -/
inductive ChannelOrder where
  | Intensity | Luminance | Rgb | Rgba | Bgra
deriving Repr, DecidableEq

/-- Device channel data types used by alloc_img
(ocl::enums::ImageChannelDataType). -/
inductive ChannelDataType where
  | UnsignedInt8 | UnsignedInt16
deriving Repr, DecidableEq

/-- Number of channels of each host pixel format (image crate). -/
def channelCount : ColorType → Nat
  | .L8 => 1 | .La8 => 2 | .Rgb8 => 3 | .Rgba8 => 4
  | .L16 => 1 | .La16 => 2 | .Rgb16 => 3 | .Rgba16 => 4
  | .Bgr8 => 3 | .Bgra8 => 4

/-- Bit depth per channel of each host pixel format (image crate). -/
def bitDepth : ColorType → Nat
  | .L8 | .La8 | .Rgb8 | .Rgba8 | .Bgr8 | .Bgra8 => 8
  | .L16 | .La16 | .Rgb16 | .Rgba16 => 16

/-- The match on T::COLOR_TYPE inside Executor::alloc_img (src/lib.rs):
the device channel order and data type for each host format, or the
panic message of the unimplemented arm. -/
def deviceFormat : ColorType → Except String (ChannelOrder × ChannelDataType)
  | .L8 => .ok (.Intensity, .UnsignedInt8)
  | .La8 => .ok (.Luminance, .UnsignedInt8)
  | .Rgb8 => .ok (.Rgb, .UnsignedInt8)
  | .Rgba8 => .ok (.Rgba, .UnsignedInt8)
  | .L16 => .ok (.Intensity, .UnsignedInt16)
  | .La16 => .ok (.Luminance, .UnsignedInt16)
  | .Rgb16 => .ok (.Rgb, .UnsignedInt16)
  | .Rgba16 => .ok (.Rgba, .UnsignedInt16)
  | .Bgr8 => .error "Channel order BRG is not implemented!"
  | .Bgra8 => .ok (.Bgra, .UnsignedInt8)

/-- A device-resident image as built by alloc_img: channel order, data
type, dimensions and memory flags. -/
structure DeviceImage where
  order : ChannelOrder
  dataType : ChannelDataType
  dims : Nat × Nat
  flags : Nat
deriving Repr, DecidableEq

/-- Executor::alloc_img (src/lib.rs): maps the host format through
deviceFormat, substitutes the default flags when the caller passes None,
and allocates a device image with the dimensions of the host image. -/
def alloc_img (ct : ColorType) (dims : Nat × Nat) (flags : Option Nat) :
    Except String DeviceImage :=
  match deviceFormat ct with
  | .error e => .error e
  | .ok (o, c) => .ok ⟨o, c, dims, flags.getD defaultFlags⟩

/-! The Device/Context Manager of src/lib.rs: Executor::default and
Executor::new. -/

/-- An available platform with its ordered device list
(ocl::Platform together with its devices). -/
structure OclPlatform where
  name : String
  devices : List String
deriving Repr, DecidableEq

/-- Executor::new (src/lib.rs): builds a context over the given device
and one queue on that context and device. -/
structure ExecutorModel where
  contextDevices : List String
  queueDevice : String
deriving Repr, DecidableEq

/-- Executor::new (src/lib.rs). -/
def executorNew (d : String) : ExecutorModel := ⟨[d], d⟩

/-- Executor::default (src/lib.rs): Platform::list().pop() removes and
returns the LAST platform of the list; Device::first takes the first
device of that platform; then Executor::new builds context and queue.
Returns the selected platform name with the executor, or none where the
source panics. -/
def executorDefault (platforms : List OclPlatform) :
    Option (String × ExecutorModel) :=
  match platforms.getLast? with
  | none => none
  | some p =>
    match p.devices.head? with
    | none => none
    | some d => some (p.name, executorNew d)

/-! Helper lemmas. -/

theorem getD_map_lt (f : Nat → Nat) (l : List Nat) (i : Nat) (h : i < l.length)
    (d e : Nat) : (l.map f).getD i d = f (l.getD i e) := by
  induction l generalizing i with
  | nil => simp at h
  | cons a tl ih =>
    cases i with
    | zero => rfl
    | succ j =>
      simp only [List.length_cons, Nat.succ_lt_succ_iff] at h
      simpa using ih j h

theorem getD_replicate_of_lt (n c i : Nat) (h : i < n) :
    (List.replicate n c).getD i 0 = c := by
  induction n generalizing i with
  | zero => omega
  | succ m ih =>
    cases i with
    | zero => rfl
    | succ j =>
      simp only [List.replicate_succ]
      simpa using ih j (by omega)

theorem list_sum_const (l : List Nat) (c : Nat) (h : ∀ x ∈ l, x = c) :
    l.sum = c * l.length := by
  induction l with
  | nil => simp
  | cons a tl ih =>
    simp only [List.sum_cons, List.length_cons]
    rw [h a (by simp), ih (fun x hx => h x (List.mem_cons_of_mem _ hx))]
    ring

theorem index_lt_of_coords (w h x y : Nat) (hx : x < w) (hy : y < h) :
    y * w + x < w * h := by
  calc y * w + x < y * w + w := Nat.add_lt_add_left hx _
    _ = (y + 1) * w := by ring
    _ ≤ h * w := Nat.mul_le_mul_right w hy
    _ = w * h := Nat.mul_comm h w

theorem constImage_get (w h c x y : Nat) (hx : x < w) (hy : y < h) :
    (constImage w h c).get x y = c := by
  unfold constImage GrayImage.get
  exact getD_replicate_of_lt (w * h) c (y * w + x) (index_lt_of_coords w h x y hx hy)

theorem mem_nbhd_self (c r n : Nat) (hc : c < n) : c ∈ nbhd c r n := by
  simp [nbhd, List.mem_filter, List.mem_range, hc]

theorem lt_of_mem_nbhd {c r n i : Nat} (h : i ∈ nbhd c r n) : i < n := by
  have := List.mem_of_mem_filter h
  simpa [List.mem_range] using this

theorem localMeanVals_const (w h c x y r : Nat) :
    ∀ v ∈ localMeanVals (constImage w h c) x y r, v = c := by
  intro v hv
  unfold localMeanVals at hv
  rw [List.mem_flatMap] at hv
  obtain ⟨j, hj, hv⟩ := hv
  rw [List.mem_map] at hv
  obtain ⟨i, hi, rfl⟩ := hv
  have hiw : i < w := lt_of_mem_nbhd hi
  have hjh : j < h := lt_of_mem_nbhd hj
  exact constImage_get w h c i j hiw hjh

theorem localMeanVals_length_pos (img : GrayImage) (x y r : Nat)
    (hx : x < img.width) (hy : y < img.height) :
    0 < (localMeanVals img x y r).length := by
  have hmem : img.get x y ∈ localMeanVals img x y r := by
    unfold localMeanVals
    rw [List.mem_flatMap]
    exact ⟨y, mem_nbhd_self y r img.height hy,
      List.mem_map.2 ⟨x, mem_nbhd_self x r img.width hx, rfl⟩⟩
  exact List.length_pos.mpr (List.ne_nil_of_mem hmem)

theorem localMean_const (w h c x y r : Nat) (hx : x < w) (hy : y < h) :
    localMean (constImage w h c) x y r = c := by
  unfold localMean
  rw [list_sum_const _ c (localMeanVals_const w h c x y r)]
  rw [Nat.mul_comm]
  exact Nat.mul_div_cancel_left c
    (localMeanVals_length_pos (constImage w h c) x y r hx hy)

theorem adaptivePixel_const (w h c x y r : Nat) (hx : x < w) (hy : y < h) :
    adaptivePixel (constImage w h c) x y r = 255 := by
  unfold adaptivePixel
  rw [localMean_const w h c x y r hx hy, constImage_get w h c x y hx hy]
  simp

/-! Claim theorems. -/

/-- Claim C1, counterexample: on a 1 by 1 image whose pixel is 255,
thresholded at t = 255, the input pixel is at least t, yet the output
pixel is 0 rather than the 255 the claim requires — exactly the
behaviour pinned by the test test_threshold_threshold_255_image_255. -/
theorem threshold_tie_counterexample :
    (threshold ⟨1, 1, [255]⟩ 255).2.data = [0] ∧
    (255 : Nat) ≥ 255 ∧
    (threshold ⟨1, 1, [255]⟩ 255).2.data ≠ [255] := by decide

/-- Claim C1, amended: threshold(image, t) returns a new image of the
same dimensions in which each output pixel is 255 if the input pixel is
STRICTLY GREATER than t and 0 otherwise. -/
theorem threshold_pixelwise_strict (img : GrayImage) (t : Nat) :
    (threshold img t).2.width = img.width ∧
    (threshold img t).2.height = img.height ∧
    ∀ i, i < img.data.length →
      (threshold img t).2.data.getD i 0 =
        if t < img.data.getD i 0 then 255 else 0 := by
  refine ⟨rfl, rfl, ?_⟩
  intro i hi
  show (img.data.map (thresholdPixel t)).getD i 0 = _
  rw [getD_map_lt (thresholdPixel t) img.data i hi 0 0]
  rfl

/-- Witness for threshold_pixelwise_strict at a concrete image. -/
theorem threshold_pixelwise_strict_witness :
    (0 : Nat) < (GrayImage.mk 2 1 [100, 200]).data.length ∧
    (threshold ⟨2, 1, [100, 200]⟩ 150).2.data.getD 0 0 =
      if 150 < (GrayImage.mk 2 1 [100, 200]).data.getD 0 0 then 255 else 0 :=
  ⟨by decide, (threshold_pixelwise_strict ⟨2, 1, [100, 200]⟩ 150).2.2 0 (by decide)⟩

/-- Claim C2: the three concrete threshold cases from the tests — a
10 by 10 constant-0 image at t = 0 yields all 0, constant-1 at t = 0
yields all 255, and the 26 by 1 ramp 0, 10, ..., 250 at t = 125 yields
thirteen 0 pixels followed by thirteen 255 pixels. -/
theorem threshold_concrete_cases :
    (threshold (constImage 10 10 0) 0).2 = constImage 10 10 0 ∧
    (threshold (constImage 10 10 1) 0).2 = constImage 10 10 255 ∧
    (threshold ⟨26, 1, (List.range 26).map (fun i => i * 10)⟩ 125).2 =
      ⟨26, 1, List.replicate 13 0 ++ List.replicate 13 255⟩ := by decide

/-- Claim C3: threshold_mut leaves the caller's buffer pixel-identical
to the image threshold returns; the operations differ only in that
threshold_mut uses a single read-write device allocation read back into
the caller's buffer, while threshold allocates a separate destination
read back into a fresh buffer. -/
theorem threshold_mut_agrees_threshold (img : GrayImage) (t : Nat) :
    (threshold_mut img t).2 = (threshold img t).2 ∧
    (threshold_mut img t).1.allocs =
      [(defaultFlags, (img.width, img.height))] ∧
    (threshold_mut img t).1.reads = [0] ∧
    (threshold img t).1.allocs =
      [(srcFlags, (img.width, img.height)), (destFlags, (img.width, img.height))] ∧
    (threshold img t).1.reads = [1] :=
  ⟨rfl, rfl, rfl, rfl, rfl⟩

/-- Claim C4, counterexample: Bgr8 has 3 channels at 8 bits, which the
claimed table sends to RGB with uint8, yet alloc_img fails on it; and
Bgra8 and Rgba8 agree on channel count and bit depth but map to
different channel orders — so the mapping is not a pure function of
(channel count, bit depth). -/
theorem alloc_img_format_counterexample :
    channelCount ColorType.Bgr8 = 3 ∧
    bitDepth ColorType.Bgr8 = 8 ∧
    (deviceFormat ColorType.Bgr8).isOk = false ∧
    channelCount ColorType.Bgra8 = channelCount ColorType.Rgba8 ∧
    bitDepth ColorType.Bgra8 = bitDepth ColorType.Rgba8 ∧
    (deviceFormat ColorType.Bgra8).toOption =
      some (ChannelOrder.Bgra, ChannelDataType.UnsignedInt8) ∧
    (deviceFormat ColorType.Rgba8).toOption =
      some (ChannelOrder.Rgba, ChannelDataType.UnsignedInt8) ∧
    ChannelOrder.Bgra ≠ ChannelOrder.Rgba := by decide

/-- Claim C4, amended: the mapping is a pure function of the full host
pixel format: L, La, Rgb, Rgba at 8 and 16 bits map to intensity,
luminance, RGB, RGBA with uint8 or uint16, Bgra8 maps to BGRA with
uint8, and Bgr8 fails with a not-implemented error rather than being
silently coerced; the allocated device image keeps the host image
dimensions. -/
theorem alloc_img_format_table :
    deviceFormat ColorType.L8 = .ok (.Intensity, .UnsignedInt8) ∧
    deviceFormat ColorType.La8 = .ok (.Luminance, .UnsignedInt8) ∧
    deviceFormat ColorType.Rgb8 = .ok (.Rgb, .UnsignedInt8) ∧
    deviceFormat ColorType.Rgba8 = .ok (.Rgba, .UnsignedInt8) ∧
    deviceFormat ColorType.L16 = .ok (.Intensity, .UnsignedInt16) ∧
    deviceFormat ColorType.La16 = .ok (.Luminance, .UnsignedInt16) ∧
    deviceFormat ColorType.Rgb16 = .ok (.Rgb, .UnsignedInt16) ∧
    deviceFormat ColorType.Rgba16 = .ok (.Rgba, .UnsignedInt16) ∧
    deviceFormat ColorType.Bgra8 = .ok (.Bgra, .UnsignedInt8) ∧
    deviceFormat ColorType.Bgr8 = .error "Channel order BRG is not implemented!" ∧
    ∀ ct dims fl d, alloc_img ct dims fl = .ok d → d.dims = dims := by
  refine ⟨rfl, rfl, rfl, rfl, rfl, rfl, rfl, rfl, rfl, rfl, ?_⟩
  intro ct dims fl d hd
  unfold alloc_img at hd
  cases hfmt : deviceFormat ct with
  | error e => rw [hfmt] at hd; cases hd
  | ok oc =>
    rw [hfmt] at hd
    obtain ⟨o, c⟩ := oc
    cases hd
    rfl

/-- Witness for alloc_img_format_table: the dimension-preservation
conjunct at the L8 format and dimensions (3, 2). -/
theorem alloc_img_format_table_witness :
    DeviceImage.dims ⟨.Intensity, .UnsignedInt8, (3, 2), defaultFlags⟩ = (3, 2) :=
  alloc_img_format_table.2.2.2.2.2.2.2.2.2.2
    ColorType.L8 (3, 2) none ⟨.Intensity, .UnsignedInt8, (3, 2), defaultFlags⟩ rfl

/-- Claim C5: stretch_contrast fails with the assertion message when
upper is at most lower; otherwise it succeeds, mapping every pixel at
or below lower to 0, every pixel at or above upper to 255, and pixels
strictly between linearly over the open interval (lower, upper). -/
theorem stretch_contrast_spec (img : GrayImage) (lower upper : Nat) :
    (upper ≤ lower →
      stretch_contrast img lower upper =
        .error "upper must be strictly greater than lower") ∧
    (lower < upper →
      (stretch_contrast img lower upper).toOption.map Prod.snd =
        some ⟨img.width, img.height, img.data.map (stretchPixel lower upper)⟩ ∧
      (∀ v, v ≤ lower → stretchPixel lower upper v = 0) ∧
      (∀ v, upper ≤ v → stretchPixel lower upper v = 255) ∧
      (∀ v, lower < v → v < upper →
        stretchPixel lower upper v = 255 * (v - lower) / (upper - lower))) := by
  constructor
  · intro hle
    unfold stretch_contrast
    rw [if_neg (by omega)]
  · intro hlt
    refine ⟨?_, ?_, ?_, ?_⟩
    · unfold stretch_contrast
      rw [if_pos hlt]
      rfl
    · intro v hv
      unfold stretchPixel
      rw [if_pos hv]
    · intro v hv
      unfold stretchPixel
      rw [if_neg (by omega), if_pos hv]
    · intro v hv1 hv2
      unfold stretchPixel
      rw [if_neg (by omega), if_neg (by omega)]

/-- Witness for stretch_contrast_spec: the failing branch at
lower = 10, upper = 5 and the succeeding branch at lower = 5,
upper = 10. -/
theorem stretch_contrast_spec_witness :
    (stretch_contrast (constImage 1 1 0) 10 5 =
      .error "upper must be strictly greater than lower") ∧
    ((stretch_contrast (constImage 1 1 7) 5 10).toOption.map Prod.snd =
      some ⟨(constImage 1 1 7).width, (constImage 1 1 7).height,
        (constImage 1 1 7).data.map (stretchPixel 5 10)⟩ ∧
     (∀ v, v ≤ 5 → stretchPixel 5 10 v = 0) ∧
     (∀ v, 10 ≤ v → stretchPixel 5 10 v = 255) ∧
     (∀ v, 5 < v → v < 10 →
       stretchPixel 5 10 v = 255 * (v - 5) / (10 - 5))) :=
  ⟨(stretch_contrast_spec (constImage 1 1 0) 10 5).1 (by decide),
   (stretch_contrast_spec (constImage 1 1 7) 5 10).2 (by decide)⟩

/-- Claim C6: adaptive_threshold fails with the assertion message
exactly when block_radius = 0 — the assertion is the first statement,
so no allocation or kernel launch happens — and for block_radius > 0 it
succeeds, dispatching its kernel. -/
theorem adaptive_threshold_radius_guard (img : GrayImage) (r : Nat) :
    (r = 0 →
      adaptive_threshold img r = .error "assertion failed: block_radius > 0") ∧
    (0 < r → ∃ x, adaptive_threshold img r = .ok x ∧
      x.1.launches = [("adaptive_threshold", (img.width, img.height))]) := by
  constructor
  · intro h0
    subst h0
    rfl
  · intro hr
    unfold adaptive_threshold
    rw [if_pos hr]
    exact ⟨_, rfl, rfl⟩

/-- Witness for adaptive_threshold_radius_guard: both branches at a
concrete 1 by 1 image. -/
theorem adaptive_threshold_radius_guard_witness :
    (adaptive_threshold (constImage 1 1 0) 0 =
      .error "assertion failed: block_radius > 0") ∧
    (∃ x, adaptive_threshold (constImage 1 1 0) 1 = .ok x ∧
      x.1.launches =
        [("adaptive_threshold", ((constImage 1 1 0).width, (constImage 1 1 0).height))]) :=
  ⟨(adaptive_threshold_radius_guard (constImage 1 1 0) 0).1 rfl,
   (adaptive_threshold_radius_guard (constImage 1 1 0) 1).2 (by decide)⟩

/-- Claim C7: on any constant image, for any block_radius > 0, the
clamped local mean at every pixel equals the constant value, the tie
passes, and adaptive_threshold yields an all-255 image of the same
dimensions. -/
theorem adaptive_threshold_constant_all255 (w h c r : Nat) (hr : 0 < r) :
    (adaptive_threshold (constImage w h c) r).toOption.map Prod.snd =
      some ⟨w, h, List.replicate (w * h) 255⟩ := by
  unfold adaptive_threshold
  rw [if_pos hr]
  simp only [Except.toOption, Option.map]
  have hpix : ∀ i ∈ List.range ((constImage w h c).width * (constImage w h c).height),
      adaptivePixel (constImage w h c) (i % (constImage w h c).width)
        (i / (constImage w h c).width) r = 255 := by
    intro i hi
    rw [List.mem_range] at hi
    have hw : 0 < w := by
      rcases Nat.eq_zero_or_pos w with h0 | h0
      · subst h0; simp [constImage] at hi
      · exact h0
    have hx : i % w < w := Nat.mod_lt i hw
    have hy : i / w < h := Nat.div_lt_of_lt_mul (by simpa [constImage] using hi)
    exact adaptivePixel_const w h c (i % w) (i / w) r hx hy
  have hdata :
      (List.range ((constImage w h c).width * (constImage w h c).height)).map
        (fun i => adaptivePixel (constImage w h c) (i % (constImage w h c).width)
          (i / (constImage w h c).width) r) = List.replicate (w * h) 255 := by
    have hall : ∀ b ∈ (List.range ((constImage w h c).width * (constImage w h c).height)).map
        (fun i => adaptivePixel (constImage w h c) (i % (constImage w h c).width)
          (i / (constImage w h c).width) r), b = 255 := by
      intro b hb
      rw [List.mem_map] at hb
      obtain ⟨i, hi, rfl⟩ := hb
      exact hpix i hi
    have := List.eq_replicate_of_mem hall
    rwa [List.length_map, List.length_range] at this
  rw [hdata]
  rfl

/-- Witness for adaptive_threshold_constant_all255: the 3 by 3 constant
image at intensity 100 with radius 1 from the test
adaptive_threshold_constant. -/
theorem adaptive_threshold_constant_all255_witness :
    (adaptive_threshold (constImage 3 3 100) 1).toOption.map Prod.snd =
      some ⟨3, 3, List.replicate (3 * 3) 255⟩ :=
  adaptive_threshold_constant_all255 3 3 100 1 (by decide)

/-- Claim C8, counterexample: with two available platforms P0 and P1,
Executor::default selects P1 — Vec::pop removes the LAST element of
Platform::list() — not the first platform P0 the claim names, and its
queue device is the first device of P1, not of P0. -/
theorem executor_default_counterexample :
    executorDefault [⟨"P0", ["d0"]⟩, ⟨"P1", ["d1"]⟩] =
      some ("P1", executorNew "d1") ∧
    ("P1" : String) ≠ "P0" ∧
    (executorNew "d1").queueDevice ≠ "d0" := by decide

/-- Claim C8, amended: Executor::default() selects the LAST platform of
the platform list (Vec::pop) and the first device of that platform,
then builds the context and a single queue from that device. -/
theorem executor_default_last_platform (ps : List OclPlatform)
    (p : OclPlatform) (d : String)
    (hp : ps.getLast? = some p) (hd : p.devices.head? = some d) :
    executorDefault ps = some (p.name, executorNew d) ∧
    (executorNew d).contextDevices = [d] ∧
    (executorNew d).queueDevice = d := by
  refine ⟨?_, rfl, rfl⟩
  unfold executorDefault
  rw [hp]
  simp only []
  rw [hd]

/-- Witness for executor_default_last_platform at a concrete two
platform list. -/
theorem executor_default_last_platform_witness :
    executorDefault [⟨"P0", ["d0"]⟩, ⟨"P1", ["d1"]⟩] =
      some (OclPlatform.name ⟨"P1", ["d1"]⟩, executorNew "d1") ∧
    (executorNew "d1").contextDevices = ["d1"] ∧
    (executorNew "d1").queueDevice = "d1" :=
  executor_default_last_platform [⟨"P0", ["d0"]⟩, ⟨"P1", ["d1"]⟩]
    ⟨"P1", ["d1"]⟩ "d1" (by decide) (by decide)

/-- Claim C9: every kernel invocation built by threshold, threshold_mut,
adaptive_threshold and stretch_contrast has a global work size equal to
the input image dimensions — one work item per pixel. -/
theorem global_work_size_eq_dims (img : GrayImage) (t r lower upper : Nat) :
    (threshold img t).1.launches = [("threshold", (img.width, img.height))] ∧
    (threshold_mut img t).1.launches =
      [("threshold_mut", (img.width, img.height))] ∧
    (∀ x, adaptive_threshold img r = .ok x →
      x.1.launches = [("adaptive_threshold", (img.width, img.height))]) ∧
    (∀ x, stretch_contrast img lower upper = .ok x →
      x.1.launches = [("stretch_contrast", (img.width, img.height))]) := by
  refine ⟨rfl, rfl, ?_, ?_⟩
  · intro x hx
    unfold adaptive_threshold at hx
    by_cases hr : r > 0
    · rw [if_pos hr] at hx
      cases hx
      rfl
    · rw [if_neg hr] at hx
      cases hx
  · intro x hx
    unfold stretch_contrast at hx
    by_cases hlt : lower < upper
    · rw [if_pos hlt] at hx
      cases hx
      rfl
    · rw [if_neg hlt] at hx
      cases hx

/-- Witness for global_work_size_eq_dims at a concrete 1 by 1 image,
radius 1 and bounds 0 and 5. -/
theorem global_work_size_eq_dims_witness :
    (threshold (constImage 1 1 0) 7).1.launches = [("threshold", (1, 1))] ∧
    (threshold_mut (constImage 1 1 0) 7).1.launches =
      [("threshold_mut", (1, 1))] ∧
    (OpTrace.mk [(srcFlags, (1, 1)), (destFlags, (1, 1))]
        [("adaptive_threshold", (1, 1))] [1],
      GrayImage.mk 1 1 [255]).1.launches = [("adaptive_threshold", (1, 1))] ∧
    (OpTrace.mk [(srcFlags, (1, 1)), (destFlags, (1, 1))]
        [("stretch_contrast", (1, 1))] [1],
      GrayImage.mk 1 1 [0]).1.launches = [("stretch_contrast", (1, 1))] :=
  have hthm := global_work_size_eq_dims (constImage 1 1 0) 7 1 0 5
  ⟨hthm.1, hthm.2.1, hthm.2.2.1 _ rfl, hthm.2.2.2 _ rfl⟩

/-- Claim C10: in threshold, adaptive_threshold and stretch_contrast
the device copy of the input is allocated with read-only and
host-write-only flags (bits 2 and 7 of the flag word), a separate
destination allocation receives the kernel result, and only that
destination (allocation index 1, not the source at index 0) is read
back to the host — so the caller input buffer is never written. -/
theorem input_image_readonly_flags (img : GrayImage) (t r lower upper : Nat) :
    (threshold img t).1.allocs =
      [(srcFlags, (img.width, img.height)), (destFlags, (img.width, img.height))] ∧
    (threshold img t).1.reads = [1] ∧
    Nat.testBit srcFlags 2 = true ∧
    Nat.testBit srcFlags 7 = true ∧
    (∀ x, adaptive_threshold img r = .ok x →
      x.1.allocs =
        [(srcFlags, (img.width, img.height)), (destFlags, (img.width, img.height))] ∧
      x.1.reads = [1]) ∧
    (∀ x, stretch_contrast img lower upper = .ok x →
      x.1.allocs =
        [(srcFlags, (img.width, img.height)), (destFlags, (img.width, img.height))] ∧
      x.1.reads = [1]) := by
  refine ⟨rfl, rfl, by decide, by decide, ?_, ?_⟩
  · intro x hx
    unfold adaptive_threshold at hx
    by_cases hr : r > 0
    · rw [if_pos hr] at hx
      cases hx
      exact ⟨rfl, rfl⟩
    · rw [if_neg hr] at hx
      cases hx
  · intro x hx
    unfold stretch_contrast at hx
    by_cases hlt : lower < upper
    · rw [if_pos hlt] at hx
      cases hx
      exact ⟨rfl, rfl⟩
    · rw [if_neg hlt] at hx
      cases hx

/-- Witness for input_image_readonly_flags at a concrete 1 by 1 image,
radius 1 and bounds 0 and 5. -/
theorem input_image_readonly_flags_witness :
    (threshold (constImage 1 1 0) 7).1.allocs =
      [(srcFlags, (1, 1)), (destFlags, (1, 1))] ∧
    (threshold (constImage 1 1 0) 7).1.reads = [1] ∧
    Nat.testBit srcFlags 2 = true ∧
    Nat.testBit srcFlags 7 = true ∧
    ((OpTrace.mk [(srcFlags, (1, 1)), (destFlags, (1, 1))]
        [("adaptive_threshold", (1, 1))] [1],
      GrayImage.mk 1 1 [255]).1.allocs =
        [(srcFlags, (1, 1)), (destFlags, (1, 1))] ∧
     (OpTrace.mk [(srcFlags, (1, 1)), (destFlags, (1, 1))]
        [("adaptive_threshold", (1, 1))] [1],
      GrayImage.mk 1 1 [255]).1.reads = [1]) ∧
    ((OpTrace.mk [(srcFlags, (1, 1)), (destFlags, (1, 1))]
        [("stretch_contrast", (1, 1))] [1],
      GrayImage.mk 1 1 [0]).1.allocs =
        [(srcFlags, (1, 1)), (destFlags, (1, 1))] ∧
     (OpTrace.mk [(srcFlags, (1, 1)), (destFlags, (1, 1))]
        [("stretch_contrast", (1, 1))] [1],
      GrayImage.mk 1 1 [0]).1.reads = [1]) :=
  have hthm := input_image_readonly_flags (constImage 1 1 0) 7 1 0 5
  ⟨hthm.1, hthm.2.1, hthm.2.2.1, hthm.2.2.2.1,
   hthm.2.2.2.2.1 _ rfl, hthm.2.2.2.2.2 _ rfl⟩

end ImageprocGpu
